import Mathlib

/-!
Shallow embedding of the orbital-mechanics core of the repository
(src/js/physics.js, src/js/spacecraft.js, src/js/scene.js) over the real
numbers, together with proofs and refutations of the frozen claims.

JavaScript double arithmetic is modelled by exact real arithmetic; the one
place where an IEEE special value is semantically load-bearing (the
semi-major axis being set to Infinity for near-parabolic orbits in
calculateOrbitalParameters, and tested with isNaN in propagateKeplerian)
is modelled by the two-constructor type JNum below.
-/

noncomputable section
open scoped Classical

namespace Orbital

/-- 3D vector over the reals, modelling THREE.Vector3. -/
@[ext]
structure Vec3 where
  x : ℝ
  y : ℝ
  z : ℝ

namespace Vec3

instance : Add Vec3 := ⟨fun a b => ⟨a.x + b.x, a.y + b.y, a.z + b.z⟩⟩
instance : Sub Vec3 := ⟨fun a b => ⟨a.x - b.x, a.y - b.y, a.z - b.z⟩⟩
instance : Neg Vec3 := ⟨fun a => ⟨-a.x, -a.y, -a.z⟩⟩
instance : SMul ℝ Vec3 := ⟨fun c a => ⟨c * a.x, c * a.y, c * a.z⟩⟩

/-- THREE.Vector3.dot. -/
def dot (a b : Vec3) : ℝ := a.x * b.x + a.y * b.y + a.z * b.z

/-- THREE.Vector3.cross / crossVectors. -/
def cross (a b : Vec3) : Vec3 :=
  ⟨a.y * b.z - a.z * b.y, a.z * b.x - a.x * b.z, a.x * b.y - a.y * b.x⟩

/-- THREE.Vector3.length. -/
def length (a : Vec3) : ℝ := Real.sqrt (dot a a)

/-- THREE.Vector3.normalize, i.e. divideScalar by the length.  (THREE falls
back to dividing by 1 on the zero vector; both conventions send the zero
vector to itself, the only vector of length 0, so the embedding agrees with
the source there too.) -/
def normalize (a : Vec3) : Vec3 := (1 / a.length) • a

end Vec3

/-- Gravitational constant, physics.js line 8. -/
def G : ℝ := 6.67430e-11

/-- physics.calculateGravitationalForce: force on object 1 exerted by
object 2, magnitude G*m1*m2/r^2, directed from 1 toward 2 (the normalized
separation vector negated). -/
def calculateGravitationalForce (mass1 mass2 : ℝ) (position1 position2 : Vec3) : Vec3 :=
  let distanceVector := position1 - position2
  let distance := distanceVector.length
  let forceMagnitude := G * mass1 * mass2 / (distance * distance)
  let forceDirection := -distanceVector.normalize
  forceMagnitude • forceDirection

/-- Result object of physics.handlePlanetCollision. -/
structure CollisionResult where
  position : Vec3
  velocity : Vec3

/-- physics.handlePlanetCollision: fires when the spacecraft is strictly
inside the planet; relocates to 1.01 planet radii along the surface normal
and reflects-then-damps the velocity.  (In the source, normal aliases
distanceVector and is mutated by multiplyScalar after newPosition and dot
are computed; the embedding writes out the values each read observes.) -/
def handlePlanetCollision (position planetPosition : Vec3) (planetRadius : ℝ)
    (velocity : Vec3) : Option CollisionResult :=
  let distanceVector := position - planetPosition
  let distance := distanceVector.length
  if distance < planetRadius then
    let normal := distanceVector.normalize
    let newPosition := planetPosition + (planetRadius * 1.01) • normal
    let d := velocity.dot normal
    let reflection := velocity - (2 * d) • normal
    let newVelocity := (0.5 : ℝ) • reflection
    some ⟨newPosition, newVelocity⟩
  else
    none

/-- JavaScript Math.atan2 (for non-NaN arguments; the source never reaches
the signed-zero distinctions), with the usual principal range. -/
def atan2 (y x : ℝ) : ℝ :=
  if 0 < x then Real.arctan (y / x)
  else if x < 0 ∧ 0 ≤ y then Real.arctan (y / x) + Real.pi
  else if x < 0 ∧ y < 0 then Real.arctan (y / x) - Real.pi
  else if x = 0 ∧ 0 < y then Real.pi / 2
  else if x = 0 ∧ y < 0 then -(Real.pi / 2)
  else 0

/-- Truncation toward zero, as JavaScript's remainder operator uses. -/
def jsTrunc (x : ℝ) : ℤ := if 0 ≤ x then ⌊x⌋ else ⌈x⌉

/-- The JavaScript remainder a % b (truncated division, sign of a). -/
def jsMod (a b : ℝ) : ℝ := a - b * (jsTrunc (a / b) : ℝ)

/-- The normalization idiom used throughout physics.js:
m = a % (2*pi); if (m < 0) m += 2*pi. -/
def norm2pi (a : ℝ) : ℝ :=
  let m := jsMod a (2 * Real.pi)
  if m < 0 then m + 2 * Real.pi else m

/-- physics.trueToMeanAnomaly: true anomaly to mean anomaly via the
atan2-based eccentric anomaly, normalized to the interval from 0 to 2*pi. -/
def trueToMeanAnomaly (trueAnomaly eccentricity : ℝ) : ℝ :=
  let cosTA := Real.cos trueAnomaly
  let sinTA := Real.sin trueAnomaly
  let cosE := (eccentricity + cosTA) / (1 + eccentricity * cosTA)
  let sinE := Real.sqrt (1 - eccentricity * eccentricity) * sinTA / (1 + eccentricity * cosTA)
  let E0 := atan2 sinE cosE
  let E := if E0 < 0 then E0 + 2 * Real.pi else E0
  norm2pi (E - eccentricity * Real.sin E)

/-- physics.eccentricToTrueAnomaly: eccentric anomaly to true anomaly,
normalized by one conditional shift of 2*pi. -/
def eccentricToTrueAnomaly (eccentricAnomaly eccentricity : ℝ) : ℝ :=
  let cosE := Real.cos eccentricAnomaly
  let sinE := Real.sin eccentricAnomaly
  let cosTA := (cosE - eccentricity) / (1 - eccentricity * cosE)
  let sinTA := Real.sqrt (1 - eccentricity * eccentricity) * sinE / (1 - eccentricity * cosE)
  let ta := atan2 sinTA cosTA
  if ta < 0 then ta + 2 * Real.pi else ta

/-- One Newton-Raphson step size for Kepler's equation:
f(E)/df(E) with f(E) = E - e*sin(E) - M and df(E) = 1 - e*cos(E). -/
def newtonDelta (e M E : ℝ) : ℝ :=
  (E - e * Real.sin E - M) / (1 - e * Real.cos E)

/-- The while loop of physics.solveKepler.  State is (E, delta, i); fuel is
the remaining iteration budget (30 - i), so the loop guard
|delta| > 1e-10 and i < 30 becomes the tolerance test plus fuel running out. -/
def kepLoop (e M : ℝ) : ℕ → ℝ × ℝ × ℕ → ℝ × ℝ × ℕ
  | 0, st => st
  | fuel + 1, (E, delta, i) =>
      if |delta| ≤ 1e-10 then (E, delta, i)
      else kepLoop e M fuel (E - newtonDelta e M E, newtonDelta e M E, i + 1)

/-- physics.solveKepler together with its convergence warning: normalizes
M, picks the initial guess (pi when e > 0.8, else M), runs at most 30
Newton-Raphson iterations with step tolerance 1e-10, normalizes the result,
and reports (as the boolean) whether the console.warn branch i >= 30 fired. -/
def solveKeplerPair (M e : ℝ) : ℝ × Bool :=
  let Mn := norm2pi M
  let E0 := if 0.8 < e then Real.pi else Mn
  let res := kepLoop e Mn 30 (E0, 1, 0)
  (norm2pi res.1, decide (30 ≤ res.2.2))

/-- physics.solveKepler, the returned eccentric anomaly. -/
def solveKepler (M e : ℝ) : ℝ := (solveKeplerPair M e).1

/-- The Newton iterate sequence for Kepler's equation from initial guess E0. -/
def kepSeq (e M E0 : ℝ) (n : ℕ) : ℝ := (fun E => E - newtonDelta e M E)^[n] E0

/-- The step size consumed entering iterate n (the loop's delta variable
after n iterations; delta starts at 1.0). -/
def kepDeltaSeq (e M E0 : ℝ) : ℕ → ℝ
  | 0 => 1
  | n + 1 => newtonDelta e M (kepSeq e M E0 n)

/-- JavaScript number as it matters to the semi-major-axis field: a finite
double or +Infinity (the parabolic marker).  NaN and -Infinity never arise
on the paths the claims exercise. -/
inductive JNum where
  | fin (x : ℝ) : JNum
  | inf : JNum

/-- JavaScript isNaN on such a value: false for every finite real and for
Infinity. -/
def JNum.isNaNProp : JNum → Prop := fun _ => False

/-- The JavaScript comparison a <= 0: Infinity <= 0 is false. -/
def JNum.nonpos : JNum → Prop
  | JNum.fin x => x ≤ 0
  | JNum.inf => False

/-- Numeric payload, read only after the propagator guard.  When the guard
is passed by an Infinity semi-major axis the JS arithmetic produces
Infinity/NaN components; the claims only inspect that a state object (not
null) comes back in that case, so that payload is not modelled numerically. -/
def JNum.toReal : JNum → ℝ
  | JNum.fin x => x
  | JNum.inf => 0

/-- The orbital-parameters record of physics.calculateOrbitalParameters.
The periapsis, apoapsis and orbitalPeriod fields of the source record are
display-only derived values consumed by no verified claim and (being
Infinity-arithmetic on parabolic/hyperbolic orbits) are not modelled. -/
structure OrbitalElements where
  eccentricity : ℝ
  semiMajorAxis : JNum
  specificEnergy : ℝ
  angularMomentum : ℝ
  inclination : ℝ
  longitudeOfAscendingNode : ℝ
  argumentOfPeriapsis : ℝ
  trueAnomaly : ℝ
  h : Vec3
  eVector : Vec3
  orbitalPlaneNormal : Vec3

/-- physics.calculateOrbitalParameters.  The parabolic special case
|e - 1| < 1e-4 stores Infinity in semiMajorAxis.  (The else branch divides
by 2*specificEnergy; specificEnergy = 0 forces e = 1 exactly and so lands
in the parabolic branch, hence that division is never by zero.) -/
def calculateOrbitalParameters (position velocity : Vec3) (centralMass : ℝ) :
    OrbitalElements :=
  let mu := G * centralMass
  let r := position.length
  let v := velocity.length
  let specificEnergy := v * v / 2 - mu / r
  let h := Vec3.cross position velocity
  let hMagnitude := h.length
  let vCrossH := Vec3.cross velocity h
  let eVector := (1 / mu) • vCrossH - position.normalize
  let eccentricity := eVector.length
  let semiMajorAxis : JNum :=
    if |eccentricity - 1| < 0.0001 then JNum.inf
    else JNum.fin (-mu / (2 * specificEnergy))
  let orbitalPlaneNormal := h.normalize
  let nodeVector := Vec3.cross ⟨0, 0, 1⟩ orbitalPlaneNormal
  let longitudeOfAscendingNode :=
    if 0.000001 < nodeVector.length then
      (let t := atan2 nodeVector.y nodeVector.x
       if t < 0 then t + 2 * Real.pi else t)
    else 0
  let inclination := Real.arccos orbitalPlaneNormal.z
  let argumentOfPeriapsis :=
    if 0.000001 < eccentricity then
      (if 0.000001 < nodeVector.length then
        (let w := Real.arccos (Vec3.dot nodeVector.normalize eVector.normalize)
         if eVector.z < 0 then 2 * Real.pi - w else w)
       else
        (let w := atan2 eVector.y eVector.x
         if w < 0 then w + 2 * Real.pi else w))
    else 0
  let trueAnomaly :=
    if 0.000001 < eccentricity then
      (let t := Real.arccos (Vec3.dot eVector.normalize position.normalize)
       if Vec3.dot position velocity < 0 then 2 * Real.pi - t else t)
    else
      (if 0.000001 < nodeVector.length then
        (let t := Real.arccos (Vec3.dot nodeVector.normalize position.normalize)
         if position.z < 0 then 2 * Real.pi - t else t)
       else
        (let t := atan2 position.y position.x
         if t < 0 then t + 2 * Real.pi else t))
  { eccentricity := eccentricity, semiMajorAxis := semiMajorAxis,
    specificEnergy := specificEnergy, angularMomentum := hMagnitude,
    inclination := inclination,
    longitudeOfAscendingNode := longitudeOfAscendingNode,
    argumentOfPeriapsis := argumentOfPeriapsis, trueAnomaly := trueAnomaly,
    h := h, eVector := eVector, orbitalPlaneNormal := orbitalPlaneNormal }

/-- The object literal physics.propagateKeplerian returns on success.  The
source constructs { position, velocity } only; trueAnomaly is not among its
properties, so a JavaScript read of newState.trueAnomaly yields undefined,
modelled as the Option value none. -/
structure PropState where
  position : Vec3
  velocity : Vec3
  trueAnomaly : Option ℝ

/-- physics.propagateKeplerian.  Guard: isNaN(a) or a <= 0 or e >= 1
returns null; note isNaN(Infinity) is false and Infinity <= 0 is false, so
a parabolic (Infinity) semi-major axis with e < 1 passes the guard. -/
def propagateKeplerian (orbitalParameters : OrbitalElements)
    (centralMass deltaTime : ℝ) : Option PropState :=
  let mu := G * centralMass
  let eccentricity := orbitalParameters.eccentricity
  let inclination := orbitalParameters.inclination
  let longitudeOfAscendingNode := orbitalParameters.longitudeOfAscendingNode
  let argumentOfPeriapsis := orbitalParameters.argumentOfPeriapsis
  let trueAnomaly := orbitalParameters.trueAnomaly
  let h := orbitalParameters.h
  if orbitalParameters.semiMajorAxis.isNaNProp ∨
     orbitalParameters.semiMajorAxis.nonpos ∨ 1 ≤ eccentricity then
    none
  else
    let semiMajorAxis := orbitalParameters.semiMajorAxis.toReal
    let meanMotion := Real.sqrt (mu / semiMajorAxis ^ 3)
    let meanAnomaly := trueToMeanAnomaly trueAnomaly eccentricity + meanMotion * deltaTime
    let newEccentricAnomaly := solveKepler meanAnomaly eccentricity
    let newTrueAnomaly := eccentricToTrueAnomaly newEccentricAnomaly eccentricity
    let p := semiMajorAxis * (1 - eccentricity * eccentricity)
    let radius := p / (1 + eccentricity * Real.cos newTrueAnomaly)
    let xPeri := radius * Real.cos newTrueAnomaly
    let yPeri := radius * Real.sin newTrueAnomaly
    let cosLOAN := Real.cos longitudeOfAscendingNode
    let sinLOAN := Real.sin longitudeOfAscendingNode
    let cosAOP := Real.cos argumentOfPeriapsis
    let sinAOP := Real.sin argumentOfPeriapsis
    let cosI := Real.cos inclination
    let sinI := Real.sin inclination
    let x := (cosLOAN * cosAOP - sinLOAN * sinAOP * cosI) * xPeri +
             (-cosLOAN * sinAOP - sinLOAN * cosAOP * cosI) * yPeri
    let y := (sinLOAN * cosAOP + cosLOAN * sinAOP * cosI) * xPeri +
             (-sinLOAN * sinAOP + cosLOAN * cosAOP * cosI) * yPeri
    let z := (sinAOP * sinI) * xPeri + (cosAOP * sinI) * yPeri
    let hScalar := h.length
    let vxPeri := -hScalar / p * Real.sin newTrueAnomaly
    let vyPeri := hScalar / p * (eccentricity + Real.cos newTrueAnomaly)
    let vx := (cosLOAN * cosAOP - sinLOAN * sinAOP * cosI) * vxPeri +
              (-cosLOAN * sinAOP - sinLOAN * cosAOP * cosI) * vyPeri
    let vy := (sinLOAN * cosAOP + cosLOAN * sinAOP * cosI) * vxPeri +
              (-sinLOAN * sinAOP + cosLOAN * cosAOP * cosI) * vyPeri
    let vz := (sinAOP * sinI) * vxPeri + (cosAOP * sinI) * vyPeri
    some ⟨⟨x, y, z⟩, ⟨vx, vy, vz⟩, none⟩

/-- The value spacecraft.js line 419 writes into the cached elements:
this.orbitalParameters.trueAnomaly = newState.trueAnomaly, i.e. the
trueAnomaly property read off the propagator's returned state. -/
def updateKeplerianStoredAnomaly (newState : PropState) : Option ℝ :=
  newState.trueAnomaly

/-- A concrete valid elliptical elements record (circular orbit of unit
semi-major axis), used to exercise the propagator's success path. -/
def circularElements : OrbitalElements :=
  { eccentricity := 0, semiMajorAxis := JNum.fin 1, specificEnergy := -(1/2),
    angularMomentum := 1, inclination := 0, longitudeOfAscendingNode := 0,
    argumentOfPeriapsis := 0, trueAnomaly := 0, h := ⟨0, 0, 1⟩,
    eVector := ⟨0, 0, 0⟩, orbitalPlaneNormal := ⟨0, 0, 1⟩ }

/-- ScaleManager.vectorToRealWorld (src/js/planet.js, second document,
lines 158-160): the vector is scaled by this.invScaleFactor, the value
1 / scaleFactor cached by the constructor (line 121); s is the scale
factor the manager was constructed with (0.001 in main.js). -/
def vectorToRealWorld (s : ℝ) (v : Vec3) : Vec3 := (1 / s) • v

/-- ScaleManager.vectorToVisualizationSpace (src/js/planet.js, second
document, lines 149-151): the vector is scaled by this.scaleFactor, the
reciprocal direction of vectorToRealWorld. -/
def vectorToVisualizationSpace (s : ℝ) (v : Vec3) : Vec3 := s • v

/-- Scene.calculateOrbitalParameters (scene.js line 688): fresh orbital
elements computed that tick from the spacecraft state relative to the
planet, converted to real-world units.  (With planet, spacecraft and scale
manager present the early null returns do not fire.) -/
def sceneOrbitalElements (s plMass : ℝ) (scPos plPos scVel : Vec3) :
    OrbitalElements :=
  calculateOrbitalParameters (vectorToRealWorld s (scPos - plPos))
    (vectorToRealWorld s scVel) plMass

/-- Which of the four exits Scene.updatePhysics takes on a tick with a
planet present. -/
inductive TickMode where
  | collision : TickMode
  | keplerian : TickMode
  | thrustWarp : TickMode
  | standard : TickMode

/-- The branch structure of Scene.updatePhysics (scene.js lines 453-602),
flattened from its early returns: first the collision check short-circuits;
then time warp above 1 with no thrust tries Keplerian propagation on the
elements recomputed this tick, taking that exit only for eccentricity < 1
and a non-null propagation; then thrusting under warp takes the substepped
numerical branch; everything else is the standard numerical integration. -/
def updatePhysicsMode (s plMass plRadius warp dt : ℝ) (thrusting : Bool)
    (scPos plPos scVel : Vec3) : TickMode :=
  if (handlePlanetCollision scPos plPos plRadius scVel).isSome then
    TickMode.collision
  else if 1 < warp ∧ thrusting = false ∧
          (sceneOrbitalElements s plMass scPos plPos scVel).eccentricity < 1 ∧
          (propagateKeplerian (sceneOrbitalElements s plMass scPos plPos scVel)
            plMass (dt * warp)).isSome then
    TickMode.keplerian
  else if thrusting = true ∧ 1 < warp then
    TickMode.thrustWarp
  else
    TickMode.standard

/-- The per-substep gravitational acceleration of the thrust-under-warp
branch: real-world force from the current positions, converted back to
visualization space and divided by the spacecraft mass. -/
def gravAccelVis (s scMass plMass : ℝ) (scPos plPos : Vec3) : Vec3 :=
  let realForce := calculateGravitationalForce scMass plMass
    (vectorToRealWorld s scPos) (vectorToRealWorld s plPos)
  let visualForce := vectorToVisualizationSpace s realForce
  (1 / scMass) • visualForce

/-- One iteration of the substep loop (scene.js lines 532-566) at loop
index i, acting on (position, velocity): the thrust impulse
(thrust/mass * unwarped dt along the forward vector) is added first and
only when i = 0; then gravity is added to the velocity, then the position
advances by the updated velocity. -/
def warpThrustBody (s scMass plMass thrust normalDt stepDt : ℝ)
    (forward plPos : Vec3) (i : ℕ) (st : Vec3 × Vec3) : Vec3 × Vec3 :=
  let v0 := if i = 0 then st.2 + (thrust / scMass * normalDt) • forward else st.2
  let acc := gravAccelVis s scMass plMass st.1 plPos
  let v1 := v0 + stepDt • acc
  (st.1 + stepDt • v1, v1)

/-- The for loop of the thrust-under-warp branch, running the body from
index i for n more iterations. -/
def warpThrustLoop (s scMass plMass thrust normalDt stepDt : ℝ)
    (forward plPos : Vec3) : ℕ → ℕ → Vec3 × Vec3 → Vec3 × Vec3
  | _, 0, st => st
  | i, n + 1, st =>
      warpThrustLoop s scMass plMass thrust normalDt stepDt forward plPos
        (i + 1) n (warpThrustBody s scMass plMass thrust normalDt stepDt forward plPos i st)

/-- The whole thrust-under-warp branch (scene.js lines 525-577): the warped
delta-time dt*warp is divided into min(10, ceil(warp)) equal substeps and
the loop is run from index 0. -/
def updatePhysicsThrustWarp (s scMass plMass thrust dt warp : ℝ)
    (forward plPos : Vec3) (st : Vec3 × Vec3) : Vec3 × Vec3 :=
  let numSteps : ℕ := min 10 ⌈warp⌉₊
  let stepDt := dt * warp / (numSteps : ℝ)
  warpThrustLoop s scMass plMass thrust dt stepDt forward plPos 0 numSteps st

end Orbital

namespace Orbital

/-! ## Helper lemmas -/

@[simp] theorem Vec3.add_x (a b : Vec3) : (a + b).x = a.x + b.x := rfl
@[simp] theorem Vec3.add_y (a b : Vec3) : (a + b).y = a.y + b.y := rfl
@[simp] theorem Vec3.add_z (a b : Vec3) : (a + b).z = a.z + b.z := rfl
@[simp] theorem Vec3.sub_x (a b : Vec3) : (a - b).x = a.x - b.x := rfl
@[simp] theorem Vec3.sub_y (a b : Vec3) : (a - b).y = a.y - b.y := rfl
@[simp] theorem Vec3.sub_z (a b : Vec3) : (a - b).z = a.z - b.z := rfl
@[simp] theorem Vec3.neg_x (a : Vec3) : (-a).x = -a.x := rfl
@[simp] theorem Vec3.neg_y (a : Vec3) : (-a).y = -a.y := rfl
@[simp] theorem Vec3.neg_z (a : Vec3) : (-a).z = -a.z := rfl
@[simp] theorem Vec3.smul_x (c : ℝ) (a : Vec3) : (c • a).x = c * a.x := rfl
@[simp] theorem Vec3.smul_y (c : ℝ) (a : Vec3) : (c • a).y = c * a.y := rfl
@[simp] theorem Vec3.smul_z (c : ℝ) (a : Vec3) : (c • a).z = c * a.z := rfl

theorem Vec3.dot_self_nonneg (a : Vec3) : 0 ≤ Vec3.dot a a := by
  unfold Vec3.dot
  nlinarith [sq_nonneg a.x, sq_nonneg a.y, sq_nonneg a.z]

theorem Vec3.length_nonneg (a : Vec3) : 0 ≤ a.length := Real.sqrt_nonneg _

theorem Vec3.dot_self_eq_length_sq (a : Vec3) :
    Vec3.dot a a = a.length * a.length := by
  unfold Vec3.length
  exact (Real.mul_self_sqrt (Vec3.dot_self_nonneg a)).symm

theorem Vec3.length_sub_comm (a b : Vec3) : (a - b).length = (b - a).length := by
  unfold Vec3.length Vec3.dot
  congr 1
  simp only [Vec3.sub_x, Vec3.sub_y, Vec3.sub_z]
  ring

theorem Vec3.length_smul (c : ℝ) (a : Vec3) : (c • a).length = |c| * a.length := by
  unfold Vec3.length Vec3.dot
  simp only [Vec3.smul_x, Vec3.smul_y, Vec3.smul_z]
  rw [show c * a.x * (c * a.x) + c * a.y * (c * a.y) + c * a.z * (c * a.z)
        = c ^ 2 * (a.x * a.x + a.y * a.y + a.z * a.z) by ring,
      Real.sqrt_mul (sq_nonneg c), Real.sqrt_sq_eq_abs]

theorem Vec3.dot_sub_left (a b c : Vec3) :
    Vec3.dot (a - b) c = Vec3.dot a c - Vec3.dot b c := by
  unfold Vec3.dot; simp only [Vec3.sub_x, Vec3.sub_y, Vec3.sub_z]; ring

theorem Vec3.dot_smul_left (r : ℝ) (a b : Vec3) :
    Vec3.dot (r • a) b = r * Vec3.dot a b := by
  unfold Vec3.dot; simp only [Vec3.smul_x, Vec3.smul_y, Vec3.smul_z]; ring

theorem Vec3.normalize_dot_self (a : Vec3) (h : 0 < a.length) :
    Vec3.dot a.normalize a.normalize = 1 := by
  unfold Vec3.normalize Vec3.dot
  simp only [Vec3.smul_x, Vec3.smul_y, Vec3.smul_z]
  have hd : a.x * a.x + a.y * a.y + a.z * a.z = a.length * a.length := by
    have := Vec3.dot_self_eq_length_sq a
    unfold Vec3.dot at this
    exact this
  field_simp
  nlinarith [hd]

theorem Vec3.normalize_length (a : Vec3) (h : 0 < a.length) :
    a.normalize.length = 1 := by
  unfold Vec3.normalize
  rw [Vec3.length_smul]
  rw [abs_of_pos (by positivity)]
  field_simp

/-! ## C10: Newton's third law -/

/-- C10: for all masses and distinct positions, the embedded
calculateGravitationalForce satisfies Newton's third law: the force on
body 1 from body 2 is the negation of the force on body 2 from body 1. -/
theorem calculateGravitationalForce_antisymm (m1 m2 : ℝ) (p1 p2 : Vec3)
    (h : p1 ≠ p2) :
    calculateGravitationalForce m1 m2 p1 p2 =
      -(calculateGravitationalForce m2 m1 p2 p1) := by
  unfold calculateGravitationalForce Vec3.normalize
  have hL : (p2 - p1).length = (p1 - p2).length := Vec3.length_sub_comm p2 p1
  ext <;>
    · simp only [Vec3.smul_x, Vec3.smul_y, Vec3.smul_z, Vec3.neg_x, Vec3.neg_y,
        Vec3.neg_z, Vec3.sub_x, Vec3.sub_y, Vec3.sub_z, hL]
      ring

theorem norm2pi_mem (a : ℝ) : norm2pi a ∈ Set.Ico 0 (2 * Real.pi) := by
  have hbpos : (0:ℝ) < 2 * Real.pi := Real.two_pi_pos
  have hbne : (2 * Real.pi) ≠ 0 := ne_of_gt hbpos
  have hab : a / (2 * Real.pi) * (2 * Real.pi) = a := div_mul_cancel₀ a hbne
  simp only [norm2pi, jsMod, jsTrunc, Set.mem_Ico]
  by_cases h : 0 ≤ a / (2 * Real.pi)
  · rw [if_pos h]
    have hfl : ((⌊a / (2 * Real.pi)⌋ : ℤ) : ℝ) ≤ a / (2 * Real.pi) := Int.floor_le _
    have hfu : a / (2 * Real.pi) < (⌊a / (2 * Real.pi)⌋ : ℝ) + 1 := Int.lt_floor_add_one _
    have h0 : 0 ≤ a - 2 * Real.pi * ((⌊a / (2 * Real.pi)⌋ : ℤ) : ℝ) := by nlinarith
    have h1 : a - 2 * Real.pi * ((⌊a / (2 * Real.pi)⌋ : ℤ) : ℝ) < 2 * Real.pi := by nlinarith
    rw [if_neg (not_lt.mpr h0)]
    exact ⟨h0, h1⟩
  · rw [if_neg h]
    have hcl : a / (2 * Real.pi) ≤ ((⌈a / (2 * Real.pi)⌉ : ℤ) : ℝ) := Int.le_ceil _
    have hcu : ((⌈a / (2 * Real.pi)⌉ : ℤ) : ℝ) < a / (2 * Real.pi) + 1 := Int.ceil_lt_add_one _
    have h0 : a - 2 * Real.pi * ((⌈a / (2 * Real.pi)⌉ : ℤ) : ℝ) ≤ 0 := by nlinarith
    have h1 : -(2 * Real.pi) < a - 2 * Real.pi * ((⌈a / (2 * Real.pi)⌉ : ℤ) : ℝ) := by nlinarith
    by_cases hm : a - 2 * Real.pi * ((⌈a / (2 * Real.pi)⌉ : ℤ) : ℝ) < 0
    · rw [if_pos hm]
      constructor <;> linarith
    · rw [if_neg hm]
      constructor
      · linarith [not_lt.mp hm]
      · linarith

theorem atan2_le_pi (y x : ℝ) : atan2 y x ≤ Real.pi := by
  unfold atan2
  split_ifs with h1 h2 h3 h4 h5
  · linarith [Real.arctan_lt_pi_div_two (y / x), Real.pi_pos]
  · have hyx : y / x ≤ 0 :=
      div_nonpos_iff.mpr (Or.inl ⟨h2.2, le_of_lt h2.1⟩)
    have harc : Real.arctan (y / x) ≤ Real.arctan 0 :=
      Real.arctan_strictMono.monotone hyx
    rw [Real.arctan_zero] at harc
    linarith
  · linarith [Real.arctan_lt_pi_div_two (y / x), Real.pi_pos]
  · linarith [Real.pi_pos]
  · linarith [Real.pi_pos]
  · linarith [Real.pi_pos]

theorem neg_pi_lt_atan2 (y x : ℝ) : -Real.pi < atan2 y x := by
  unfold atan2
  split_ifs with h1 h2 h3 h4 h5
  · linarith [Real.neg_pi_div_two_lt_arctan (y / x), Real.pi_pos]
  · linarith [Real.neg_pi_div_two_lt_arctan (y / x), Real.pi_pos]
  · have hyx : 0 < y / x := div_pos_iff.mpr (Or.inr ⟨h3.2, h3.1⟩)
    have harc : Real.arctan 0 < Real.arctan (y / x) := Real.arctan_strictMono hyx
    rw [Real.arctan_zero] at harc
    linarith
  · linarith [Real.pi_pos]
  · linarith [Real.pi_pos]
  · linarith [Real.pi_pos]

theorem shift_mem_Ico {t : ℝ} (hlo : -Real.pi < t) (hhi : t ≤ Real.pi) :
    (if t < 0 then t + 2 * Real.pi else t) ∈ Set.Ico 0 (2 * Real.pi) := by
  have hp := Real.pi_pos
  split_ifs with hneg
  · simp only [Set.mem_Ico]
    constructor <;> linarith
  · simp only [Set.mem_Ico]
    constructor <;> linarith [not_lt.mp hneg]

/-! ## C9: anomaly range invariant -/

/-- C9: for eccentricity in [0,1) and any real angle inputs, the mean
anomaly produced by trueToMeanAnomaly, the eccentric anomaly produced by
solveKepler, and the true anomaly produced by eccentricToTrueAnomaly all
lie in the half-open interval [0, 2*pi). -/
theorem anomaly_outputs_in_range (nu eca M e : ℝ) (he0 : 0 ≤ e) (he1 : e < 1) :
    trueToMeanAnomaly nu e ∈ Set.Ico 0 (2 * Real.pi) ∧
    solveKepler M e ∈ Set.Ico 0 (2 * Real.pi) ∧
    eccentricToTrueAnomaly eca e ∈ Set.Ico 0 (2 * Real.pi) := by
  refine ⟨?_, ?_, ?_⟩
  · simp only [trueToMeanAnomaly]
    exact norm2pi_mem _
  · simp only [solveKepler, solveKeplerPair]
    exact norm2pi_mem _
  · simp only [eccentricToTrueAnomaly]
    exact shift_mem_Ico (neg_pi_lt_atan2 _ _) (atan2_le_pi _ _)

/-- C9 witness: the range invariant instantiated at concrete inputs. -/
theorem anomaly_outputs_in_range_witness :
    (0:ℝ) ≤ 0 ∧ (0:ℝ) < 1 ∧
    (trueToMeanAnomaly 0 0 ∈ Set.Ico 0 (2 * Real.pi) ∧
     solveKepler 0 0 ∈ Set.Ico 0 (2 * Real.pi) ∧
     eccentricToTrueAnomaly 0 0 ∈ Set.Ico 0 (2 * Real.pi)) :=
  ⟨le_refl 0, by norm_num,
   anomaly_outputs_in_range 0 0 0 0 (le_refl 0) (by norm_num)⟩

/-! ## C6: termination and shape of the Kepler solver -/

theorem kepSeq_succ (e M E0 : ℝ) (n : ℕ) :
    kepSeq e M E0 (n + 1) = kepSeq e M E0 n - newtonDelta e M (kepSeq e M E0 n) := by
  unfold kepSeq
  rw [Function.iterate_succ_apply']

theorem kepLoop_run (e M E0 : ℝ) :
    ∀ (fuel i : ℕ),
      ∃ k, i ≤ k ∧ k ≤ i + fuel ∧
        kepLoop e M fuel (kepSeq e M E0 i, kepDeltaSeq e M E0 i, i)
          = (kepSeq e M E0 k, kepDeltaSeq e M E0 k, k) ∧
        (∀ j, i ≤ j → j < k → 1e-10 < |kepDeltaSeq e M E0 j|) ∧
        (k < i + fuel → |kepDeltaSeq e M E0 k| ≤ 1e-10) := by
  intro fuel
  induction fuel with
  | zero =>
      intro i
      refine ⟨i, le_refl i, by omega, rfl, ?_, ?_⟩
      · intro j h1 h2; omega
      · intro hlt; omega
  | succ n ih =>
      intro i
      by_cases hd : |kepDeltaSeq e M E0 i| ≤ 1e-10
      · refine ⟨i, le_refl i, by omega, ?_, ?_, ?_⟩
        · simp only [kepLoop]
          rw [if_pos hd]
        · intro j h1 h2; omega
        · intro _; exact hd
      · obtain ⟨k, hk1, hk2, hk3, hk4, hk5⟩ := ih (i + 1)
        refine ⟨k, by omega, by omega, ?_, ?_, ?_⟩
        · have hstep : kepLoop e M (n + 1) (kepSeq e M E0 i, kepDeltaSeq e M E0 i, i)
              = kepLoop e M n (kepSeq e M E0 (i + 1), kepDeltaSeq e M E0 (i + 1), i + 1) := by
            simp only [kepLoop]
            rw [if_neg hd, kepSeq_succ]
            rfl
          rw [hstep, hk3]
        · intro j hj1 hj2
          rcases eq_or_lt_of_le hj1 with heq | hlt
          · rw [← heq]
            exact not_le.mp hd
          · exact hk4 j (by omega) hj2
        · intro hlt
          exact hk5 (by omega)

/-- C6: for every mean anomaly and eccentricity in [0,1), the embedded
solveKepler terminates with a value after some number k of Newton-Raphson
iterations on E - e*sin(E) - M with 1 <= k <= 30, starting from the initial
guess pi when e > 0.8 and the normalized M otherwise; every step before the
last exceeded the 1e-10 tolerance, stopping early means the final step met
the tolerance, and the non-convergence warning fires exactly when all 30
iterations were used, the best estimate still being returned. -/
theorem solveKepler_newton_characterization (M e : ℝ) (he0 : 0 ≤ e) (he1 : e < 1) :
    ∃ k, 1 ≤ k ∧ k ≤ 30 ∧
      solveKepler M e =
        norm2pi (kepSeq e (norm2pi M) (if 0.8 < e then Real.pi else norm2pi M) k) ∧
      (∀ j, 1 ≤ j → j < k →
        1e-10 < |kepDeltaSeq e (norm2pi M) (if 0.8 < e then Real.pi else norm2pi M) j|) ∧
      (k < 30 → |kepDeltaSeq e (norm2pi M) (if 0.8 < e then Real.pi else norm2pi M) k| ≤ 1e-10) ∧
      ((solveKeplerPair M e).2 = true ↔ k = 30) := by
  obtain ⟨k, hk0, hk30, hrun, hbig, hsmall⟩ :=
    kepLoop_run e (norm2pi M) (if 0.8 < e then Real.pi else norm2pi M) 30 0
  have hrun' : kepLoop e (norm2pi M) 30
      ((if 0.8 < e then Real.pi else norm2pi M), 1, 0)
      = (kepSeq e (norm2pi M) (if 0.8 < e then Real.pi else norm2pi M) k,
         kepDeltaSeq e (norm2pi M) (if 0.8 < e then Real.pi else norm2pi M) k, k) := hrun
  have hk1 : 1 ≤ k := by
    by_contra hcon
    push_neg at hcon
    have hk0' : k = 0 := by omega
    have := hsmall (by omega)
    rw [hk0'] at this
    have hone : kepDeltaSeq e (norm2pi M)
        (if 0.8 < e then Real.pi else norm2pi M) 0 = 1 := rfl
    rw [hone] at this
    norm_num at this
  refine ⟨k, hk1, by omega, ?_, ?_, ?_, ?_⟩
  · show (solveKeplerPair M e).1 = _
    simp only [solveKeplerPair]
    rw [hrun']
  · intro j hj1 hj2
    exact hbig j (by omega) hj2
  · intro hlt
    exact hsmall (by omega)
  · show (solveKeplerPair M e).2 = true ↔ k = 30
    simp only [solveKeplerPair]
    rw [hrun']
    simp only [decide_eq_true_eq]
    omega

/-- C6 witness: the characterization instantiated at M = 0, e = 0. -/
theorem solveKepler_newton_characterization_witness :
    (0:ℝ) ≤ 0 ∧ (0:ℝ) < 1 ∧
    (∃ k, 1 ≤ k ∧ k ≤ 30 ∧
      solveKepler 0 0 =
        norm2pi (kepSeq 0 (norm2pi 0) (if (0.8:ℝ) < 0 then Real.pi else norm2pi 0) k) ∧
      (∀ j, 1 ≤ j → j < k →
        1e-10 < |kepDeltaSeq 0 (norm2pi 0) (if (0.8:ℝ) < 0 then Real.pi else norm2pi 0) j|) ∧
      (k < 30 → |kepDeltaSeq 0 (norm2pi 0) (if (0.8:ℝ) < 0 then Real.pi else norm2pi 0) k| ≤ 1e-10) ∧
      ((solveKeplerPair 0 0).2 = true ↔ k = 30)) :=
  ⟨le_refl 0, by norm_num,
   solveKepler_newton_characterization 0 0 (le_refl 0) (by norm_num)⟩

/-! ## C1: the propagator guard against non-elliptical elements -/

/-- C1 (evaluating the code at the failing input): a near-parabolic bound
state (eccentricity 0.99995, within 1e-4 of 1, so semiMajorAxis is stored
as Infinity) produced by calculateOrbitalParameters is NOT signalled as
non-applicable by propagateKeplerian: the source guard
isNaN(a) or a <= 0 or e >= 1 is passed by a = Infinity with e < 1, and a
state object (not null) is returned, refuting the claim that null is
returned whenever the semi-major axis is not finite and positive. -/
theorem propagateKeplerian_accepts_parabolic :
    (calculateOrbitalParameters ⟨1, 0, 0⟩ ⟨0, Real.sqrt 1.99995, 0⟩ (1 / G)).semiMajorAxis
        = JNum.inf ∧
    |(calculateOrbitalParameters ⟨1, 0, 0⟩ ⟨0, Real.sqrt 1.99995, 0⟩ (1 / G)).eccentricity - 1|
        < 0.0001 ∧
    (calculateOrbitalParameters ⟨1, 0, 0⟩ ⟨0, Real.sqrt 1.99995, 0⟩ (1 / G)).eccentricity < 1 ∧
    (propagateKeplerian (calculateOrbitalParameters ⟨1, 0, 0⟩ ⟨0, Real.sqrt 1.99995, 0⟩ (1 / G))
        (1 / G) 1).isSome = true := by
  have hGne : G ≠ 0 := by unfold G; norm_num
  have hmu : G * (1 / G) = 1 := by
    rw [mul_one_div, div_self hGne]
  have hs2 : Real.sqrt 1.99995 * Real.sqrt 1.99995 = 1.99995 :=
    Real.mul_self_sqrt (by norm_num)
  have hlen1 : ((⟨1, 0, 0⟩ : Vec3) : Vec3).length = 1 := by
    unfold Vec3.length Vec3.dot
    norm_num
  have hnorm1 : ((⟨1, 0, 0⟩ : Vec3)).normalize = (⟨1, 0, 0⟩ : Vec3) := by
    unfold Vec3.normalize
    rw [hlen1]
    ext <;> simp
  have hcross1 : Vec3.cross ⟨1, 0, 0⟩ ⟨0, Real.sqrt 1.99995, 0⟩
      = (⟨0, 0, Real.sqrt 1.99995⟩ : Vec3) := by
    unfold Vec3.cross
    ext <;> simp <;> ring
  have hcross2 : Vec3.cross ⟨0, Real.sqrt 1.99995, 0⟩ ⟨0, 0, Real.sqrt 1.99995⟩
      = (⟨Real.sqrt 1.99995 * Real.sqrt 1.99995, 0, 0⟩ : Vec3) := by
    unfold Vec3.cross
    ext <;> simp <;> ring
  have hraw : Vec3.length ((1 / (G * (1 / G))) •
      Vec3.cross ⟨0, Real.sqrt 1.99995, 0⟩
        (Vec3.cross ⟨1, 0, 0⟩ ⟨0, Real.sqrt 1.99995, 0⟩) -
      Vec3.normalize ⟨1, 0, 0⟩) = 0.99995 := by
    rw [hcross1, hcross2, hnorm1, hmu]
    have hvec : ((1:ℝ) / 1) • (⟨Real.sqrt 1.99995 * Real.sqrt 1.99995, 0, 0⟩ : Vec3)
        - (⟨1, 0, 0⟩ : Vec3) = (⟨0.99995, 0, 0⟩ : Vec3) := by
      ext <;> simp <;> nlinarith [hs2]
    rw [hvec]
    unfold Vec3.length Vec3.dot
    rw [show (0.99995:ℝ) * 0.99995 + 0 * 0 + 0 * 0 = 0.99995 ^ 2 by ring,
        Real.sqrt_sq (by norm_num)]
  have hecc : (calculateOrbitalParameters ⟨1, 0, 0⟩ ⟨0, Real.sqrt 1.99995, 0⟩ (1 / G)).eccentricity
      = 0.99995 := by
    simp only [calculateOrbitalParameters]
    exact hraw
  have hsma : (calculateOrbitalParameters ⟨1, 0, 0⟩ ⟨0, Real.sqrt 1.99995, 0⟩ (1 / G)).semiMajorAxis
      = JNum.inf := by
    simp only [calculateOrbitalParameters]
    rw [hraw]
    rw [if_pos (by rw [abs_lt]; constructor <;> norm_num)]
  refine ⟨hsma, ?_, ?_, ?_⟩
  · rw [hecc, abs_lt]; constructor <;> norm_num
  · rw [hecc]; norm_num
  · simp only [propagateKeplerian]
    rw [hsma, hecc]
    rw [if_neg (by simp [JNum.isNaNProp, JNum.nonpos]; norm_num)]
    simp

/-! ## C2: the propagator's returned state and the cached true anomaly -/

/-- C2 (evaluating the code): the object physics.propagateKeplerian returns
has no trueAnomaly property, so on every successful propagation the value
spacecraft.js line 419 stores into the cached elements
(this.orbitalParameters.trueAnomaly = newState.trueAnomaly) is undefined
(none), not the advanced true anomaly; the second conjunct exhibits a
concrete successful step doing so.  This refutes the claim that the
returned state includes the new true anomaly. -/
theorem propagateKeplerian_drops_trueAnomaly :
    (∀ el cm dt, (propagateKeplerian el cm dt).map updateKeplerianStoredAnomaly
        = (propagateKeplerian el cm dt).map (fun _ => (none : Option ℝ))) ∧
    (propagateKeplerian circularElements 1 1).map updateKeplerianStoredAnomaly
        = some none := by
  constructor
  · intro el cm dt
    simp only [propagateKeplerian]
    split_ifs with hguard
    · simp
    · simp [updateKeplerianStoredAnomaly]
  · simp only [propagateKeplerian, circularElements]
    rw [if_neg (by simp [JNum.isNaNProp, JNum.nonpos])]
    simp [updateKeplerianStoredAnomaly]

/-! ## C4 and C3: collision resolution -/

/-- C4: handlePlanetCollision returns a result exactly when the position is
strictly inside the planet radius; when it fires with positive distance the
returned position is planetPosition + 1.01*planetRadius*n and the returned
velocity is 0.5*(v - 2(v.n)n) for the outward unit normal n; otherwise it
returns none. -/
theorem handlePlanetCollision_spec (pos plPos : Vec3) (R : ℝ) (v : Vec3) :
    ((handlePlanetCollision pos plPos R v).isSome ↔ (pos - plPos).length < R) ∧
    (0 < (pos - plPos).length → (pos - plPos).length < R →
      handlePlanetCollision pos plPos R v =
        some ⟨plPos + (1.01 * R) • (pos - plPos).normalize,
              (0.5 : ℝ) •
                (v - (2 * (v.dot (pos - plPos).normalize)) • (pos - plPos).normalize)⟩) := by
  constructor
  · simp only [handlePlanetCollision]
    split_ifs with hR
    · simpa using hR
    · simpa using hR
  · intro _ hR
    simp only [handlePlanetCollision]
    rw [if_pos hR]
    refine congrArg some ?_
    have hsw : (R * 1.01) • (pos - plPos).normalize
        = (1.01 * R) • (pos - plPos).normalize := by
      ext <;> simp only [Vec3.smul_x, Vec3.smul_y, Vec3.smul_z] <;> ring
    rw [hsw]

/-- C3 witness-side helper is not needed; this is the C3 counterexample:
for the strictly interior position (1,0,0) in a planet of radius 2 centred
at the origin and the outward-pointing velocity (1,0,0), the resolved
velocity's component along the outward normal is -1/2, which is not
positive, refuting the claim's "for every velocity". -/
theorem handlePlanetCollision_outward_cex :
    0 < ((⟨1, 0, 0⟩ : Vec3) - ⟨0, 0, 0⟩).length ∧
    ((⟨1, 0, 0⟩ : Vec3) - ⟨0, 0, 0⟩).length < 2 ∧
    (handlePlanetCollision ⟨1, 0, 0⟩ ⟨0, 0, 0⟩ 2 ⟨1, 0, 0⟩).map
        (fun r => r.velocity.dot (((⟨1, 0, 0⟩ : Vec3) - ⟨0, 0, 0⟩).normalize)) =
      some (-(1/2) : ℝ) ∧
    ¬ ((0 : ℝ) < -(1/2)) := by
  have hsub : ((⟨1, 0, 0⟩ : Vec3) - ⟨0, 0, 0⟩) = (⟨1, 0, 0⟩ : Vec3) := by
    ext <;> simp
  have hlen : ((⟨1, 0, 0⟩ : Vec3) : Vec3).length = 1 := by
    unfold Vec3.length Vec3.dot
    norm_num
  have hnorm : ((⟨1, 0, 0⟩ : Vec3)).normalize = (⟨1, 0, 0⟩ : Vec3) := by
    unfold Vec3.normalize
    rw [hlen]
    ext <;> simp
  refine ⟨?_, ?_, ?_, by norm_num⟩
  · rw [hsub, hlen]; norm_num
  · rw [hsub, hlen]; norm_num
  · simp only [handlePlanetCollision, hsub, hlen, hnorm]
    rw [if_pos (by norm_num)]
    simp only [Option.map_some']
    refine congrArg some ?_
    simp only [Vec3.dot, Vec3.smul_x, Vec3.smul_y, Vec3.smul_z, Vec3.sub_x,
      Vec3.sub_y, Vec3.sub_z]
    norm_num

/-- C3 (amended): for a position strictly inside the planet and a velocity
heading inward (negative component along the outward normal), the resolver
returns a position at distance planetRadius*1.01 from the centre (within
1e-9; in exact arithmetic, exactly) and a velocity whose component along
the outward normal is positive.  (The amendment adds the inward-heading
hypothesis; for an outward or tangential input velocity the reflected
component is -0.5*(v.n), which is not positive.) -/
theorem handlePlanetCollision_inward (pos plPos : Vec3) (R : ℝ) (v : Vec3)
    (h0 : 0 < (pos - plPos).length) (hR : (pos - plPos).length < R)
    (hin : v.dot (pos - plPos).normalize < 0) :
    ∃ r : CollisionResult, handlePlanetCollision pos plPos R v = some r ∧
      |(r.position - plPos).length - R * 1.01| ≤ 1e-9 ∧
      0 < r.velocity.dot (pos - plPos).normalize := by
  refine ⟨⟨plPos + (R * 1.01) • (pos - plPos).normalize,
          (0.5 : ℝ) •
            (v - (2 * (v.dot (pos - plPos).normalize)) • (pos - plPos).normalize)⟩,
          ?_, ?_, ?_⟩
  · simp only [handlePlanetCollision]
    rw [if_pos hR]
  · have hpp : (plPos + (R * 1.01) • (pos - plPos).normalize) - plPos
        = (R * 1.01) • (pos - plPos).normalize := by
      ext <;> simp <;> ring
    have hRpos : 0 < R := lt_trans h0 hR
    rw [hpp, Vec3.length_smul, Vec3.normalize_length _ h0, mul_one,
        abs_of_pos (mul_pos hRpos (by norm_num : (0:ℝ) < 1.01))]
    norm_num
  · rw [Vec3.dot_smul_left, Vec3.dot_sub_left, Vec3.dot_smul_left,
        Vec3.normalize_dot_self _ h0]
    nlinarith [hin]

/-- C3 amended witness: concrete interior position with inward velocity. -/
theorem handlePlanetCollision_inward_witness :
    0 < ((⟨1, 0, 0⟩ : Vec3) - ⟨0, 0, 0⟩).length ∧
    ((⟨1, 0, 0⟩ : Vec3) - ⟨0, 0, 0⟩).length < 2 ∧
    (⟨-1, 0, 0⟩ : Vec3).dot (((⟨1, 0, 0⟩ : Vec3) - ⟨0, 0, 0⟩).normalize) < 0 ∧
    (∃ r : CollisionResult,
      handlePlanetCollision ⟨1, 0, 0⟩ ⟨0, 0, 0⟩ 2 ⟨-1, 0, 0⟩ = some r ∧
      |(r.position - ⟨0, 0, 0⟩).length - 2 * 1.01| ≤ 1e-9 ∧
      0 < r.velocity.dot (((⟨1, 0, 0⟩ : Vec3) - ⟨0, 0, 0⟩).normalize)) := by
  have hsub : ((⟨1, 0, 0⟩ : Vec3) - ⟨0, 0, 0⟩) = (⟨1, 0, 0⟩ : Vec3) := by
    ext <;> simp
  have hlen : ((⟨1, 0, 0⟩ : Vec3) : Vec3).length = 1 := by
    unfold Vec3.length Vec3.dot
    norm_num
  have hnorm : ((⟨1, 0, 0⟩ : Vec3)).normalize = (⟨1, 0, 0⟩ : Vec3) := by
    unfold Vec3.normalize
    rw [hlen]
    ext <;> simp
  have h0 : 0 < ((⟨1, 0, 0⟩ : Vec3) - ⟨0, 0, 0⟩).length := by
    rw [hsub, hlen]; norm_num
  have hR : ((⟨1, 0, 0⟩ : Vec3) - ⟨0, 0, 0⟩).length < 2 := by
    rw [hsub, hlen]; norm_num
  have hin : (⟨-1, 0, 0⟩ : Vec3).dot (((⟨1, 0, 0⟩ : Vec3) - ⟨0, 0, 0⟩).normalize) < 0 := by
    rw [hsub, hnorm]
    simp [Vec3.dot]
  exact ⟨h0, hR, hin, handlePlanetCollision_inward ⟨1, 0, 0⟩ ⟨0, 0, 0⟩ 2 ⟨-1, 0, 0⟩ h0 hR hin⟩

/-- C4 witness: the exact fire-case formulas at a concrete interior state. -/
theorem handlePlanetCollision_spec_witness :
    0 < ((⟨1, 0, 0⟩ : Vec3) - ⟨0, 0, 0⟩).length ∧
    ((⟨1, 0, 0⟩ : Vec3) - ⟨0, 0, 0⟩).length < 2 ∧
    handlePlanetCollision ⟨1, 0, 0⟩ ⟨0, 0, 0⟩ 2 ⟨0, 1, 0⟩ =
      some ⟨(⟨0, 0, 0⟩ : Vec3) + ((1.01 : ℝ) * 2) • (((⟨1, 0, 0⟩ : Vec3) - ⟨0, 0, 0⟩).normalize),
            (0.5 : ℝ) •
              ((⟨0, 1, 0⟩ : Vec3) -
                (2 * ((⟨0, 1, 0⟩ : Vec3).dot (((⟨1, 0, 0⟩ : Vec3) - ⟨0, 0, 0⟩).normalize))) •
                  (((⟨1, 0, 0⟩ : Vec3) - ⟨0, 0, 0⟩).normalize))⟩ := by
  have hsub : ((⟨1, 0, 0⟩ : Vec3) - ⟨0, 0, 0⟩) = (⟨1, 0, 0⟩ : Vec3) := by
    ext <;> simp
  have hlen : ((⟨1, 0, 0⟩ : Vec3) : Vec3).length = 1 := by
    unfold Vec3.length Vec3.dot
    norm_num
  have h0 : 0 < ((⟨1, 0, 0⟩ : Vec3) - ⟨0, 0, 0⟩).length := by
    rw [hsub, hlen]; norm_num
  have hR : ((⟨1, 0, 0⟩ : Vec3) - ⟨0, 0, 0⟩).length < 2 := by
    rw [hsub, hlen]; norm_num
  exact ⟨h0, hR, (handlePlanetCollision_spec ⟨1, 0, 0⟩ ⟨0, 0, 0⟩ 2 ⟨0, 1, 0⟩).2 h0 hR⟩

/-! ## C7: when the tick goes Keplerian -/

/-- C7: on a tick with a planet present and no collision, the Keplerian
exit is taken only when the warp factor exceeds 1, the spacecraft is not
thrusting, and the elements recomputed that tick have eccentricity below 1;
whenever that conjunction fails the tick takes one of the two numerical
integration exits. -/
theorem updatePhysicsMode_keplerian_guard (s plMass plRadius warp dt : ℝ)
    (thrusting : Bool) (scPos plPos scVel : Vec3)
    (hnc : (handlePlanetCollision scPos plPos plRadius scVel).isSome = false) :
    (updatePhysicsMode s plMass plRadius warp dt thrusting scPos plPos scVel
        = TickMode.keplerian →
      1 < warp ∧ thrusting = false ∧
      (sceneOrbitalElements s plMass scPos plPos scVel).eccentricity < 1) ∧
    (¬(1 < warp ∧ thrusting = false ∧
        (sceneOrbitalElements s plMass scPos plPos scVel).eccentricity < 1) →
      updatePhysicsMode s plMass plRadius warp dt thrusting scPos plPos scVel
          = TickMode.thrustWarp ∨
      updatePhysicsMode s plMass plRadius warp dt thrusting scPos plPos scVel
          = TickMode.standard) := by
  unfold updatePhysicsMode
  simp only [hnc, Bool.false_eq_true, if_false]
  split_ifs with h1 h2
  · constructor
    · intro _
      exact ⟨h1.1, h1.2.1, h1.2.2.1⟩
    · intro hcon
      exact absurd ⟨h1.1, h1.2.1, h1.2.2.1⟩ hcon
  · constructor
    · intro hx; cases hx
    · intro _; exact Or.inl rfl
  · constructor
    · intro hx; cases hx
    · intro _; exact Or.inr rfl

/-- C7 witness: the guard instantiated at a concrete collision-free state
(warp factor 1, so the tick is numerical). -/
theorem updatePhysicsMode_keplerian_guard_witness :
    (handlePlanetCollision ⟨2, 0, 0⟩ ⟨0, 0, 0⟩ 1 ⟨0, 0, 0⟩).isSome = false ∧
    ((updatePhysicsMode 1 1 1 1 1 false ⟨2, 0, 0⟩ ⟨0, 0, 0⟩ ⟨0, 0, 0⟩
        = TickMode.keplerian →
      1 < (1:ℝ) ∧ false = false ∧
      (sceneOrbitalElements 1 1 ⟨2, 0, 0⟩ ⟨0, 0, 0⟩ ⟨0, 0, 0⟩).eccentricity < 1) ∧
    (¬(1 < (1:ℝ) ∧ false = false ∧
        (sceneOrbitalElements 1 1 ⟨2, 0, 0⟩ ⟨0, 0, 0⟩ ⟨0, 0, 0⟩).eccentricity < 1) →
      updatePhysicsMode 1 1 1 1 1 false ⟨2, 0, 0⟩ ⟨0, 0, 0⟩ ⟨0, 0, 0⟩
          = TickMode.thrustWarp ∨
      updatePhysicsMode 1 1 1 1 1 false ⟨2, 0, 0⟩ ⟨0, 0, 0⟩ ⟨0, 0, 0⟩
          = TickMode.standard)) := by
  have hsub : ((⟨2, 0, 0⟩ : Vec3) - ⟨0, 0, 0⟩) = (⟨2, 0, 0⟩ : Vec3) := by
    ext <;> simp
  have hlen : ((⟨2, 0, 0⟩ : Vec3) : Vec3).length = 2 := by
    unfold Vec3.length Vec3.dot
    rw [show (2:ℝ) * 2 + 0 * 0 + 0 * 0 = 2 ^ 2 by ring, Real.sqrt_sq (by norm_num)]
  have hnc : (handlePlanetCollision ⟨2, 0, 0⟩ ⟨0, 0, 0⟩ 1 ⟨0, 0, 0⟩).isSome = false := by
    simp only [handlePlanetCollision, hsub, hlen]
    rw [if_neg (by norm_num)]
    simp
  exact ⟨hnc, updatePhysicsMode_keplerian_guard 1 1 1 1 1 false ⟨2, 0, 0⟩ ⟨0, 0, 0⟩ ⟨0, 0, 0⟩ hnc⟩

/-! ## C8: substepped thrust integration under time warp -/

theorem warpThrustLoop_tail (s scMass plMass thrust normalDt stepDt : ℝ)
    (forward plPos : Vec3) :
    ∀ (n i : ℕ), 1 ≤ i → ∀ st : Vec3 × Vec3,
      warpThrustLoop s scMass plMass thrust normalDt stepDt forward plPos i n st
        = (fun st : Vec3 × Vec3 =>
             (st.1 + stepDt • (st.2 + stepDt • gravAccelVis s scMass plMass st.1 plPos),
              st.2 + stepDt • gravAccelVis s scMass plMass st.1 plPos))^[n] st := by
  intro n
  induction n with
  | zero =>
      intro i _ st
      rfl
  | succ m ih =>
      intro i hi st
      have hbody : warpThrustBody s scMass plMass thrust normalDt stepDt forward plPos i st
          = (st.1 + stepDt • (st.2 + stepDt • gravAccelVis s scMass plMass st.1 plPos),
             st.2 + stepDt • gravAccelVis s scMass plMass st.1 plPos) := by
        simp only [warpThrustBody]
        rw [if_neg (by omega)]
      show warpThrustLoop s scMass plMass thrust normalDt stepDt forward plPos (i + 1) m
          (warpThrustBody s scMass plMass thrust normalDt stepDt forward plPos i st) = _
      rw [hbody, ih (i + 1) (by omega), Function.iterate_succ_apply]

/-- C8: under warp factor above 1 with thrust, the integration branch
equals min(10, ceil(warp)) iterations of the semi-implicit Euler substep
(velocity updated by gravity first, position advanced by the updated
velocity, each with step dt*warp/numSteps) started from the state whose
velocity has received the thrust impulse (thrust/mass times the unwarped
dt along the forward vector) exactly once. -/
theorem updatePhysicsThrustWarp_structure (s scMass plMass thrust dt warp : ℝ)
    (forward plPos : Vec3) (x v : Vec3) (hwarp : 1 < warp) :
    updatePhysicsThrustWarp s scMass plMass thrust dt warp forward plPos (x, v)
      = (fun st : Vec3 × Vec3 =>
           (st.1 + (dt * warp / ((min 10 ⌈warp⌉₊ : ℕ) : ℝ)) •
              (st.2 + (dt * warp / ((min 10 ⌈warp⌉₊ : ℕ) : ℝ)) •
                gravAccelVis s scMass plMass st.1 plPos),
            st.2 + (dt * warp / ((min 10 ⌈warp⌉₊ : ℕ) : ℝ)) •
              gravAccelVis s scMass plMass st.1 plPos))^[min 10 ⌈warp⌉₊]
          (x, v + (thrust / scMass * dt) • forward) := by
  have hcpos : 0 < ⌈warp⌉₊ := Nat.ceil_pos.mpr (by linarith)
  obtain ⟨m, hm⟩ : ∃ m, min 10 ⌈warp⌉₊ = m + 1 := ⟨min 10 ⌈warp⌉₊ - 1, by omega⟩
  simp only [updatePhysicsThrustWarp]
  rw [hm]
  have hbody0 : warpThrustBody s scMass plMass thrust dt
      (dt * warp / ((m + 1 : ℕ) : ℝ)) forward plPos 0 (x, v)
      = ((x, v + (thrust / scMass * dt) • forward).1 +
           (dt * warp / ((m + 1 : ℕ) : ℝ)) •
             ((x, v + (thrust / scMass * dt) • forward).2 +
               (dt * warp / ((m + 1 : ℕ) : ℝ)) •
                 gravAccelVis s scMass plMass
                   (x, v + (thrust / scMass * dt) • forward).1 plPos),
         (x, v + (thrust / scMass * dt) • forward).2 +
           (dt * warp / ((m + 1 : ℕ) : ℝ)) •
             gravAccelVis s scMass plMass
               (x, v + (thrust / scMass * dt) • forward).1 plPos) := by
    simp [warpThrustBody]
  show warpThrustLoop s scMass plMass thrust dt (dt * warp / ((m + 1 : ℕ) : ℝ))
      forward plPos 1 m
      (warpThrustBody s scMass plMass thrust dt (dt * warp / ((m + 1 : ℕ) : ℝ))
        forward plPos 0 (x, v)) = _
  rw [hbody0, warpThrustLoop_tail s scMass plMass thrust dt
      (dt * warp / ((m + 1 : ℕ) : ℝ)) forward plPos m 1 (le_refl 1),
      ← Function.iterate_succ_apply]

/-- C8 witness: the substep equation instantiated at warp factor 2. -/
theorem updatePhysicsThrustWarp_structure_witness :
    (1:ℝ) < 2 ∧
    updatePhysicsThrustWarp 1 1 1 1 1 2 ⟨0, 0, 1⟩ ⟨0, 0, 0⟩ (⟨1, 0, 0⟩, ⟨0, 1, 0⟩)
      = (fun st : Vec3 × Vec3 =>
           (st.1 + ((1:ℝ) * 2 / ((min 10 ⌈(2:ℝ)⌉₊ : ℕ) : ℝ)) •
              (st.2 + ((1:ℝ) * 2 / ((min 10 ⌈(2:ℝ)⌉₊ : ℕ) : ℝ)) •
                gravAccelVis 1 1 1 st.1 ⟨0, 0, 0⟩),
            st.2 + ((1:ℝ) * 2 / ((min 10 ⌈(2:ℝ)⌉₊ : ℕ) : ℝ)) •
              gravAccelVis 1 1 1 st.1 ⟨0, 0, 0⟩))^[min 10 ⌈(2:ℝ)⌉₊]
          (⟨1, 0, 0⟩, ⟨0, 1, 0⟩ + ((1:ℝ) / 1 * 1) • ⟨0, 0, 1⟩) :=
  ⟨by norm_num,
   updatePhysicsThrustWarp_structure 1 1 1 1 1 2 ⟨0, 0, 1⟩ ⟨0, 0, 0⟩
     ⟨1, 0, 0⟩ ⟨0, 1, 0⟩ (by norm_num)⟩

/-- C10 witness: the law instantiated at two concrete distinct points. -/
theorem calculateGravitationalForce_antisymm_witness :
    (⟨1, 0, 0⟩ : Vec3) ≠ (⟨0, 0, 0⟩ : Vec3) ∧
      calculateGravitationalForce 1 2 ⟨1, 0, 0⟩ ⟨0, 0, 0⟩ =
        -(calculateGravitationalForce 2 1 ⟨0, 0, 0⟩ ⟨1, 0, 0⟩) := by
  constructor
  · intro hcontra
    have := congrArg Vec3.x hcontra
    norm_num at this
  · exact calculateGravitationalForce_antisymm 1 2 ⟨1, 0, 0⟩ ⟨0, 0, 0⟩
      (by intro hcontra; have := congrArg Vec3.x hcontra; norm_num at this)

end Orbital
